import Mathlib

/-!
Shallow embedding of the repository's partition-slicing core and the
Salesloft OAuth2 authenticator.

The repository ships the unit tests for the cartesian-product stream
slicer (`test_cartesian_product_stream_slicer.py`) but not the slicer
implementations themselves (`cartesian_product_stream_slicer.py`,
`list_stream_slicer.py`, `datetime_stream_slicer.py` are absent from the
visible sources); those operations are modelled from the specification,
constrained by the expectations the in-repo tests assert.  The Salesloft
authenticator (`custom_authenticators.py`) is present and embedded
directly.
-/

/-- A partition descriptor (stream slice): an ordered mapping from string
key to string value, represented as an association list. -/
abbrev Descriptor := List (String × String)

/-- Modelled from the spec: the list-dimension slicer (the missing
`list_stream_slicer.py`).  Holds a fixed, caller-ordered list of values, a
cursor field naming the dimension's key, and an optional cursor marking
the value last processed. -/
structure ListStreamSlicer where
  slice_values : List String
  cursor_field : String
  cursor : Option String

/-- Modelled from the spec: enumeration of a list dimension is one
descriptor per configured value, in array order, neither sorted nor
deduplicated. -/
def ListStreamSlicer.stream_slices (s : ListStreamSlicer) : List Descriptor :=
  s.slice_values.map (fun v => [(s.cursor_field, v)])

/-- Modelled from the spec: a list slicer's update sets the cursor to the
value found at the slicer's key in the descriptor; a descriptor lacking
that key leaves the slicer untouched. -/
def ListStreamSlicer.update_cursor (s : ListStreamSlicer) (slice : Descriptor)
    (_record : Option Descriptor) : ListStreamSlicer :=
  match List.lookup s.cursor_field slice with
  | some v => ⟨s.slice_values, s.cursor_field, some v⟩
  | none => s

/-- Modelled from the spec: a list slicer's state is the mapping from its
key to the cursor value, or the empty mapping when no progress was ever
recorded. -/
def ListStreamSlicer.get_state (s : ListStreamSlicer) : Descriptor :=
  match s.cursor with
  | some v => [(s.cursor_field, v)]
  | none => []

/-- Modelled from the spec: the range (datetime) dimension slicer (the
missing `datetime_stream_slicer.py`).  Boundaries and the step are day
numbers; the format used for output formatting and input parsing is the
externally supplied configuration collaborator of the spec, carried as a
pair of functions. -/
structure DatetimeStreamSlicer where
  start_datetime : Nat
  end_datetime : Nat
  step : Nat
  cursor_field : String
  fmt : Nat → String
  parse : String → Option Nat
  cursor : Option Nat

/-- Helper for range enumeration: emit sub-intervals of width `step`
starting at `s`, clipped to the end boundary `e`, with explicit fuel
(the caller passes enough fuel to cover the whole range). -/
def dt_slices_fuel (fmt : Nat → String) (step e : Nat) : Nat → Nat → List Descriptor
  | 0, _ => []
  | fuel + 1, s =>
    if s ≤ e then
      [("start_date", fmt s), ("end_date", fmt (min (s + step - 1) e))] ::
        dt_slices_fuel fmt step e fuel (s + step)
    else []

/-- Modelled from the spec: range enumeration produces contiguous
sub-intervals stepped by `step` from the start boundary (or from the
cursor when one is recorded, never earlier than it) up to the end
boundary, a final partial interval included; an end boundary before the
start yields the empty enumeration. -/
def DatetimeStreamSlicer.stream_slices (d : DatetimeStreamSlicer) : List Descriptor :=
  let s0 := match d.cursor with
    | some c => max d.start_datetime c
    | none => d.start_datetime
  dt_slices_fuel d.fmt d.step d.end_datetime (d.end_datetime + 1 - s0) s0

/-- Modelled from the spec: the value a range slicer observes from an
update call — the value at its cursor field in the slice and/or in the
record, parsed by the configured format, the larger of the two when both
are present. -/
def DatetimeStreamSlicer.obs_value (d : DatetimeStreamSlicer) (slice : Descriptor)
    (record : Option Descriptor) : Option Nat :=
  match (List.lookup d.cursor_field slice).bind d.parse,
        (record.bind (fun r => List.lookup d.cursor_field r)).bind d.parse with
  | some a, some b => some (max a b)
  | some a, none => some a
  | none, some b => some b
  | none, none => none

/-- Modelled from the spec: a range slicer's update advances the cursor to
the maximum of the current cursor and the observed value, never
regressing; an update carrying no value for this dimension leaves the
slicer untouched. -/
def DatetimeStreamSlicer.update_cursor (d : DatetimeStreamSlicer) (slice : Descriptor)
    (record : Option Descriptor) : DatetimeStreamSlicer :=
  match d.obs_value slice record with
  | none => d
  | some v =>
    match d.cursor with
    | none => ⟨d.start_datetime, d.end_datetime, d.step, d.cursor_field, d.fmt, d.parse, some v⟩
    | some c =>
        ⟨d.start_datetime, d.end_datetime, d.step, d.cursor_field, d.fmt, d.parse,
          some (max c v)⟩

/-- Modelled from the spec: a range slicer's state maps its cursor field
to the formatted cursor boundary, or is empty when no progress was ever
recorded. -/
def DatetimeStreamSlicer.get_state (d : DatetimeStreamSlicer) : Descriptor :=
  match d.cursor with
  | some c => [(d.cursor_field, d.fmt c)]
  | none => []

/-- A single-dimension slicer: one of the two shipped variants. -/
inductive StreamSlicer
  | list : ListStreamSlicer → StreamSlicer
  | datetime : DatetimeStreamSlicer → StreamSlicer

/-- Enumeration of a single-dimension slicer. -/
def StreamSlicer.stream_slices : StreamSlicer → List Descriptor
  | .list s => s.stream_slices
  | .datetime d => d.stream_slices

/-- State update of a single-dimension slicer. -/
def StreamSlicer.update_cursor : StreamSlicer → Descriptor → Option Descriptor → StreamSlicer
  | .list s, slice, record => .list (s.update_cursor slice record)
  | .datetime d, slice, record => .datetime (d.update_cursor slice record)

/-- Current state of a single-dimension slicer. -/
def StreamSlicer.get_state : StreamSlicer → Descriptor
  | .list s => s.get_state
  | .datetime d => d.get_state

/-- The key by which update routing addresses a single-dimension slicer. -/
def StreamSlicer.cursor_key : StreamSlicer → String
  | .list s => s.cursor_field
  | .datetime d => d.cursor_field

/-- Nested-loop cross product of the children's descriptor lists: the
first list varies slowest, each later list is re-walked in full for every
element of the earlier ones, and each emitted descriptor is the key-wise
union (concatenation, keys being distinct across dimensions). -/
def product_descriptors : List (List Descriptor) → List Descriptor
  | [] => [[]]
  | l :: ls => (l.map (fun d => (product_descriptors ls).map (fun d2 => d ++ d2))).flatten

/-- Modelled from the spec: the composite (cartesian product) slicer (the
missing `cartesian_product_stream_slicer.py`) — an ordered list of child
slicers, no state of its own. -/
structure CartesianProductStreamSlicer where
  stream_slicers : List StreamSlicer

/-- Modelled from the spec: composite enumeration treats the children as
nested loops with child 0 outermost; zero children yield the empty
sequence, not a single empty partition. -/
def CartesianProductStreamSlicer.stream_slices (c : CartesianProductStreamSlicer) :
    List Descriptor :=
  match c.stream_slicers with
  | [] => []
  | s :: rest => product_descriptors ((s :: rest).map StreamSlicer.stream_slices)

/-- Modelled from the spec: the composite routes an update to every child,
each child acting only when its own key is present in the input. -/
def CartesianProductStreamSlicer.update_cursor (c : CartesianProductStreamSlicer)
    (slice : Descriptor) (record : Option Descriptor) : CartesianProductStreamSlicer :=
  ⟨c.stream_slicers.map (fun s => s.update_cursor slice record)⟩

/-- Modelled from the spec: the combined stream state is the union of the
children's states in child order; when no child has ever recorded
progress it is null (`none`), as the in-repo test
`test_update_cursor_no_state_no_record` asserts and the spec's "never
null unless no progress has ever been recorded" allows. -/
def CartesianProductStreamSlicer.get_stream_state (c : CartesianProductStreamSlicer) :
    Option Descriptor :=
  let states := c.stream_slicers.map StreamSlicer.get_state
  if states.all (fun st => st.isEmpty) then none else some states.flatten

/-- Day-number formatting for the January 2021 dates the tests use; the
format ("%Y-%m-%d") is external configuration per the spec, supplied here
on the tests' domain. -/
def fmt_ymd (n : Nat) : String := "2021-01-0" ++ toString n

/-- Day-number parsing, the inverse of `fmt_ymd` on the tests' domain. -/
def parse_ymd (s : String) : Option Nat :=
  if s = "2021-01-01" then some 1
  else if s = "2021-01-02" then some 2
  else if s = "2021-01-03" then some 3
  else none

/-- The list slicer over owner resources used throughout the tests. -/
def owner_slicer : ListStreamSlicer :=
  ⟨["customer", "store", "subscription"], "owner_resource", none⟩

/-- The two-letter list slicer of the `test_two_stream_slicers` case. -/
def letter_slicer : ListStreamSlicer := ⟨["A", "B"], "letter", none⟩

/-- The datetime slicer of `test_list_and_datetime`: 2021-01-01 to
2021-01-03 stepped by one day, with an empty cursor field. -/
def jan_slicer : DatetimeStreamSlicer := ⟨1, 3, 1, "", fmt_ymd, parse_ymd, none⟩

/-- The datetime slicer of `test_update_cursor`: same range, cursor field
"date". -/
def jan_slicer_date : DatetimeStreamSlicer := ⟨1, 3, 1, "date", fmt_ymd, parse_ymd, none⟩

/-- The composite slicer of the `test_update_cursor` cases: the owner
list slicer together with the January 2021 date slicer keyed "date". -/
def update_cursor_slicer : CartesianProductStreamSlicer :=
  ⟨[.list owner_slicer, .datetime jan_slicer_date]⟩

/-- Ordering on optional cursor values: an absent cursor precedes
everything, and present cursors compare by value. -/
def cursor_le : Option Nat → Option Nat → Prop
  | none, _ => True
  | some _, none => False
  | some a, some b => a ≤ b

/-- A whole sequence of update calls, folded over a range slicer. -/
def apply_updates (d : DatetimeStreamSlicer)
    (us : List (Descriptor × Option Descriptor)) : DatetimeStreamSlicer :=
  us.foldl (fun acc u => acc.update_cursor u.1 u.2) d

/-- A JSON value as the token endpoint may return it. -/
inductive JsonValue
  | str : String → JsonValue
  | num : Int → JsonValue
  | boolean : Bool → JsonValue
  | null : JsonValue
deriving DecidableEq

/-- The Salesloft OAuth2 authenticator of custom_authenticators.py.  The
accessors inherited from the CDK parent class (get_access_token,
refresh_token, client_id, client_secret, token_refresh_endpoint) are
modelled as stored fields. -/
structure Oauth2Authenticator where
  access_token : String
  refresh_token : String
  client_id : String
  client_secret : String
  token_refresh_endpoint : String

/-- The parent-class access-token getter, modelled as the field read. -/
def Oauth2Authenticator.get_access_token (a : Oauth2Authenticator) : String :=
  a.access_token

/-- The auth_header property: the literal header name. -/
def Oauth2Authenticator.auth_header (_a : Oauth2Authenticator) : String :=
  "Authorization"

/-- The token property: "Bearer " followed by the access token. -/
def Oauth2Authenticator.token (a : Oauth2Authenticator) : String :=
  "Bearer " ++ a.get_access_token

/-- The get_auth_header method: the one-entry Authorization mapping. -/
def Oauth2Authenticator.get_auth_header (a : Oauth2Authenticator) :
    List (String × String) :=
  [("Authorization", "Bearer " ++ a.get_access_token)]

/-- The get_refresh_request_body method: grant type and refresh token. -/
def Oauth2Authenticator.get_refresh_request_body (a : Oauth2Authenticator) :
    List (String × String) :=
  [("grant_type", "refresh_token"), ("refresh_token", a.refresh_token)]

/-- An outgoing HTTP request, as requests.request receives it: method,
url, form body, and optional basic-auth credential pair. -/
structure HttpRequest where
  method : String
  url : String
  data : List (String × String)
  auth : Option (String × String)

/-- The POST request refresh_access_token builds: the token endpoint, the
refresh body as form data, and the client id/secret as basic auth. -/
def Oauth2Authenticator.refresh_request (a : Oauth2Authenticator) : HttpRequest :=
  ⟨"POST", a.token_refresh_endpoint, a.get_refresh_request_body,
    some (a.client_id, a.client_secret)⟩

/-- An HTTP response: a status code and the decoded JSON object, none
standing for a body that fails to decode as JSON. -/
structure HttpResponse where
  status_code : Nat
  json_body : Option (List (String × JsonValue))

/-- The body of refresh_access_token's try block: send the request
(transport failure arriving as an error from the effect), raise for a
4xx/5xx status, decode JSON, and look up the two keys; each failure is
the corresponding Python exception's message. -/
def refresh_flow (a : Oauth2Authenticator)
    (http : HttpRequest → Except String HttpResponse) :
    Except String (JsonValue × JsonValue) :=
  match http a.refresh_request with
  | .error e => .error e
  | .ok r =>
    if 400 ≤ r.status_code ∧ r.status_code < 600 then
      .error ("HTTPError: " ++ toString r.status_code)
    else
      match r.json_body with
      | none => .error "JSONDecodeError"
      | some j =>
        match List.lookup "access_token" j with
        | none => .error "KeyError: access_token"
        | some tok =>
          match List.lookup "expires_in" j with
          | none => .error "KeyError: expires_in"
          | some exp => .ok (tok, exp)

/-- The refresh_access_token method: the try body, every failure of which
is re-raised as an Exception whose message prefixes the original with
"Error while refreshing access token: " (the chained cause's text is the
embedded remainder). -/
def Oauth2Authenticator.refresh_access_token (a : Oauth2Authenticator)
    (http : HttpRequest → Except String HttpResponse) :
    Except String (JsonValue × JsonValue) :=
  match refresh_flow a http with
  | .ok v => .ok v
  | .error e => .error ("Error while refreshing access token: " ++ e)

/-- Sum of a constant map: each of the n elements contributes c. -/
theorem sum_map_const_nat {α : Type} (l : List α) (c : Nat) :
    (l.map (fun _ => c)).sum = l.length * c := by
  induction l with
  | nil => simp
  | cons a l ih => simp [ih, Nat.succ_mul, Nat.add_comm]

/-- Product of a one-element list of factor lists is that factor itself. -/
theorem product_descriptors_singleton (l : List Descriptor) :
    product_descriptors [l] = l := by
  induction l with
  | nil => rfl
  | cons d l ih =>
      simp only [product_descriptors, List.map_cons, List.map_nil, List.flatten] at ih ⊢
      simpa using ih

/-- The nested-loop product has exactly the product of the factors' lengths. -/
theorem length_product_descriptors (ls : List (List Descriptor)) :
    (product_descriptors ls).length = (ls.map List.length).prod := by
  induction ls with
  | nil => rfl
  | cons l ls ih =>
      simp only [product_descriptors, List.map_cons, List.prod_cons]
      rw [List.length_flatten, List.map_map]
      have : (List.length ∘ fun d => (product_descriptors ls).map (fun d2 => d ++ d2)) =
          fun _ => (product_descriptors ls).length := by
        funext d
        simp
      rw [this, sum_map_const_nat, ih]

/-- The nested-loop product has no duplicates when every factor list has
no duplicates and, within each factor, all descriptors have one common
length (true of the shipped slicers: one entry per list dimension, two
per range dimension). -/
theorem nodup_product_descriptors (ls : List (List Descriptor))
    (h1 : ∀ l ∈ ls, l.Nodup)
    (h2 : ∀ l ∈ ls, ∀ d ∈ l, ∀ d2 ∈ l, d.length = d2.length) :
    (product_descriptors ls).Nodup := by
  induction ls with
  | nil => simp [product_descriptors]
  | cons l ls ih =>
      have hl : l.Nodup := h1 l (List.mem_cons_self l ls)
      have hrest : (product_descriptors ls).Nodup :=
        ih (fun x hx => h1 x (List.mem_cons_of_mem l hx))
          (fun x hx => h2 x (List.mem_cons_of_mem l hx))
      show ((l.map (fun d => (product_descriptors ls).map (fun d2 => d ++ d2))).flatten).Nodup
      rw [← List.flatMap_def]
      refine List.nodup_flatMap.mpr ⟨?_, ?_⟩
      · intro d _
        exact hrest.map (fun x y hxy => List.append_cancel_left hxy)
      · refine List.Pairwise.imp_of_mem ?_ hl
        intro d d2 hd hd2 hne x hx hx2
        obtain ⟨a, _, rfl⟩ := List.mem_map.mp hx
        obtain ⟨b, _, hba⟩ := List.mem_map.mp hx2
        have hlen : d.length = d2.length := h2 l (List.mem_cons_self l ls) d hd d2 hd2
        exact hne (List.append_inj hba.symm hlen).1

/-- Unfolding equation: composite enumeration on a nonempty child list is
the nested-loop product of the children's enumerations. -/
theorem stream_slices_cons (s : StreamSlicer) (rest : List StreamSlicer) :
    CartesianProductStreamSlicer.stream_slices ⟨s :: rest⟩ =
      product_descriptors ((s :: rest).map StreamSlicer.stream_slices) := rfl

/-- Unfolding equation: one step of the nested-loop product. -/
theorem product_descriptors_cons (l : List Descriptor) (ls : List (List Descriptor)) :
    product_descriptors (l :: ls) =
      (l.map (fun d => (product_descriptors ls).map (fun d2 => d ++ d2))).flatten := rfl

/-- C1: for a composite built from child slicers of sizes n1..nk the
enumeration has exactly n1*...*nk descriptors; it is the nested-loop
order with child 0 varying slowest and the inner child fully
re-enumerated for every outer advance; it has no duplicates whenever each
child's enumeration has none and is shape-uniform; and the 2-factor
composite of the size-3 owner list and the size-2 letter list yields
exactly the six descriptors of the test, in the test's order, without
duplicates. -/
theorem c1_cross_product_enumeration :
    (∀ ss : List StreamSlicer, ss ≠ [] →
      (CartesianProductStreamSlicer.stream_slices ⟨ss⟩).length =
        (ss.map (fun s => s.stream_slices.length)).prod) ∧
    (∀ a b : StreamSlicer,
      CartesianProductStreamSlicer.stream_slices ⟨[a, b]⟩ =
        (a.stream_slices.map (fun da =>
          b.stream_slices.map (fun db => da ++ db))).flatten) ∧
    (∀ ss : List StreamSlicer, ss ≠ [] →
      (∀ s ∈ ss, s.stream_slices.Nodup) →
      (∀ s ∈ ss, ∀ d ∈ s.stream_slices, ∀ d2 ∈ s.stream_slices, d.length = d2.length) →
      (CartesianProductStreamSlicer.stream_slices ⟨ss⟩).Nodup) ∧
    (CartesianProductStreamSlicer.stream_slices ⟨[.list owner_slicer, .list letter_slicer]⟩ =
      [[("owner_resource", "customer"), ("letter", "A")],
       [("owner_resource", "customer"), ("letter", "B")],
       [("owner_resource", "store"), ("letter", "A")],
       [("owner_resource", "store"), ("letter", "B")],
       [("owner_resource", "subscription"), ("letter", "A")],
       [("owner_resource", "subscription"), ("letter", "B")]] ∧
     (CartesianProductStreamSlicer.stream_slices
        ⟨[.list owner_slicer, .list letter_slicer]⟩).Nodup) := by
  refine ⟨?_, ?_, ?_, by decide, by decide⟩
  · intro ss h
    cases ss with
    | nil => exact absurd rfl h
    | cons s rest =>
        rw [stream_slices_cons, length_product_descriptors, List.map_map]
        rfl
  · intro a b
    rw [stream_slices_cons, List.map_cons, List.map_cons, List.map_nil,
      product_descriptors_cons, product_descriptors_singleton]
  · intro ss h hnd hlen
    cases ss with
    | nil => exact absurd rfl h
    | cons s rest =>
        rw [stream_slices_cons]
        apply nodup_product_descriptors
        · intro l hl
          obtain ⟨x, hx, rfl⟩ := List.mem_map.mp hl
          exact hnd x hx
        · intro l hl
          obtain ⟨x, hx, rfl⟩ := List.mem_map.mp hl
          exact hlen x hx

/-- Witness for C1: the cardinality and no-duplicates facts applied to
the concrete two-list composite of the test, its hypotheses discharged
there. -/
theorem c1_cross_product_enumeration_witness :
    (CartesianProductStreamSlicer.stream_slices
        ⟨[.list owner_slicer, .list letter_slicer]⟩).length =
      ([StreamSlicer.list owner_slicer, StreamSlicer.list letter_slicer].map
        (fun s => s.stream_slices.length)).prod ∧
    (CartesianProductStreamSlicer.stream_slices
        ⟨[.list owner_slicer, .list letter_slicer]⟩).Nodup :=
  ⟨c1_cross_product_enumeration.1 _ (by simp),
   c1_cross_product_enumeration.2.2.1 _ (by simp) (by decide) (by decide)⟩

/-- C2: the composite of the owner list slicer and the daily January 2021
date-range slicer yields exactly the nine descriptors of the test — owner
outermost, each descriptor the key-wise union of the owner key and the
daily sub-range keys, starting from customer with the 2021-01-01 day. -/
theorem c2_list_and_datetime_composite :
    CartesianProductStreamSlicer.stream_slices ⟨[.list owner_slicer, .datetime jan_slicer]⟩ =
      [[("owner_resource", "customer"), ("start_date", "2021-01-01"), ("end_date", "2021-01-01")],
       [("owner_resource", "customer"), ("start_date", "2021-01-02"), ("end_date", "2021-01-02")],
       [("owner_resource", "customer"), ("start_date", "2021-01-03"), ("end_date", "2021-01-03")],
       [("owner_resource", "store"), ("start_date", "2021-01-01"), ("end_date", "2021-01-01")],
       [("owner_resource", "store"), ("start_date", "2021-01-02"), ("end_date", "2021-01-02")],
       [("owner_resource", "store"), ("start_date", "2021-01-03"), ("end_date", "2021-01-03")],
       [("owner_resource", "subscription"), ("start_date", "2021-01-01"), ("end_date", "2021-01-01")],
       [("owner_resource", "subscription"), ("start_date", "2021-01-02"), ("end_date", "2021-01-02")],
       [("owner_resource", "subscription"), ("start_date", "2021-01-03"), ("end_date", "2021-01-03")]] := by
  decide

/-- C5: the composite built from a single child slicer enumerates exactly
that child's own enumeration, in the same order. -/
theorem c5_single_factor_identity (s : StreamSlicer) :
    CartesianProductStreamSlicer.stream_slices ⟨[s]⟩ = s.stream_slices := by
  rw [stream_slices_cons, List.map_cons, List.map_nil, product_descriptors_singleton]

/-- C3 counterexample: after update_cursor with the empty mapping and no
record on a composite with no prior state, get_stream_state is null
(none) — not the empty mapping the claim asserts.  This is exactly what
the in-repo case test_update_cursor_no_state_no_record expects. -/
theorem c3_empty_update_counterexample :
    (update_cursor_slicer.update_cursor [] none).get_stream_state = none ∧
    (update_cursor_slicer.update_cursor [] none).get_stream_state ≠ some [] := by
  decide

/-- C3 (amended): update_cursor with an empty mapping and no record
leaves every child's state empty, and get_stream_state then returns null
(none), since no progress has ever been recorded. -/
theorem c3_empty_update_state_null :
    ((update_cursor_slicer.update_cursor [] none).stream_slicers.map
        StreamSlicer.get_state = [[], []]) ∧
    (update_cursor_slicer.update_cursor [] none).get_stream_state = none := by
  decide

/-- C4: an update whose input lacks a child's key (in the slice and in
the record) leaves that child — and hence its state — untouched, for
every child slicer; and on the test's composite, updating with only the
owner key yields combined state exactly the owner entry, the date
dimension left absent. -/
theorem c4_partial_update_isolation :
    (∀ (s : StreamSlicer) (slice : Descriptor) (record : Option Descriptor),
      List.lookup s.cursor_key slice = none →
      record.bind (fun r => List.lookup s.cursor_key r) = none →
      s.update_cursor slice record = s ∧
        (s.update_cursor slice record).get_state = s.get_state) ∧
    (update_cursor_slicer.update_cursor
        [("owner_resource", "customer")] none).get_stream_state =
      some [("owner_resource", "customer")] ∧
    ((update_cursor_slicer.update_cursor
        [("owner_resource", "customer")] none).stream_slicers.map
        StreamSlicer.get_state = [[("owner_resource", "customer")], []]) := by
  refine ⟨?_, by decide, by decide⟩
  intro s slice record h1 h2
  have hs : s.update_cursor slice record = s := by
    cases s with
    | list s =>
        simp only [StreamSlicer.cursor_key] at h1
        simp [StreamSlicer.update_cursor, ListStreamSlicer.update_cursor, h1]
    | datetime d =>
        simp only [StreamSlicer.cursor_key] at h1 h2
        have hobs : d.obs_value slice record = none := by
          simp [DatetimeStreamSlicer.obs_value, h1, h2]
        simp [StreamSlicer.update_cursor, DatetimeStreamSlicer.update_cursor, hobs]
  exact ⟨hs, by rw [hs]⟩

/-- Witness for C4: the isolation fact applied to the date slicer and the
owner-only descriptor of the test, the absent-key hypotheses discharged
there. -/
theorem c4_partial_update_isolation_witness :
    StreamSlicer.update_cursor (.datetime jan_slicer_date)
        [("owner_resource", "customer")] none = .datetime jan_slicer_date ∧
      (StreamSlicer.update_cursor (.datetime jan_slicer_date)
        [("owner_resource", "customer")] none).get_state =
        (StreamSlicer.datetime jan_slicer_date).get_state :=
  c4_partial_update_isolation.1 _ _ _ (by decide) rfl

/-- Reflexivity of the cursor ordering. -/
theorem cursor_le_refl (a : Option Nat) : cursor_le a a := by
  cases a <;> simp [cursor_le]

/-- Transitivity of the cursor ordering. -/
theorem cursor_le_trans {a b c : Option Nat} (h1 : cursor_le a b) (h2 : cursor_le b c) :
    cursor_le a c := by
  cases a <;> cases b <;> cases c <;> simp_all [cursor_le]
  omega

/-- One update never decreases a range slicer's cursor. -/
theorem update_cursor_state_mono (d : DatetimeStreamSlicer) (slice : Descriptor)
    (record : Option Descriptor) :
    cursor_le d.cursor (d.update_cursor slice record).cursor := by
  unfold DatetimeStreamSlicer.update_cursor
  cases h : d.obs_value slice record with
  | none => exact cursor_le_refl _
  | some v =>
      cases hc : d.cursor with
      | none => simp [cursor_le, hc]
      | some c => simp [cursor_le, hc]

/-- C6: over every sequence of updates a range slicer's cursor never
decreases; an update observing a value not past the current cursor is
silently dropped (the cursor stays put, no error — update_cursor is
total); and an update observing a value against a present cursor sets the
cursor to the maximum of the two. -/
theorem c6_monotonic_cursor :
    (∀ (d : DatetimeStreamSlicer) (us : List (Descriptor × Option Descriptor)),
      cursor_le d.cursor (apply_updates d us).cursor) ∧
    (∀ (d : DatetimeStreamSlicer) (slice : Descriptor) (record : Option Descriptor)
        (v c : Nat), d.obs_value slice record = some v → d.cursor = some c → v ≤ c →
      (d.update_cursor slice record).cursor = some c) ∧
    (∀ (d : DatetimeStreamSlicer) (slice : Descriptor) (record : Option Descriptor)
        (v c : Nat), d.obs_value slice record = some v → d.cursor = some c →
      (d.update_cursor slice record).cursor = some (max c v)) ∧
    (∀ (d : DatetimeStreamSlicer) (slice : Descriptor) (record : Option Descriptor)
        (v : Nat), d.obs_value slice record = some v → d.cursor = none →
      (d.update_cursor slice record).cursor = some v) := by
  refine ⟨?_, ?_, ?_, ?_⟩
  · intro d us
    induction us generalizing d with
    | nil => exact cursor_le_refl _
    | cons u us ih =>
        exact cursor_le_trans (update_cursor_state_mono d u.1 u.2)
          (ih (d.update_cursor u.1 u.2))
  · intro d slice record v c hobs hc hvc
    unfold DatetimeStreamSlicer.update_cursor
    rw [hobs, hc]
    simp [Nat.max_eq_left hvc]
  · intro d slice record v c hobs hc
    unfold DatetimeStreamSlicer.update_cursor
    rw [hobs, hc]
  · intro d slice record v hobs hc
    unfold DatetimeStreamSlicer.update_cursor
    rw [hobs, hc]

/-- Witness for C6: on the date slicer with cursor at day 3, an update
observing the earlier day 1 leaves the cursor at day 3, and the
max-formulation agrees; hypotheses discharged at these concrete inputs. -/
theorem c6_monotonic_cursor_witness :
    (DatetimeStreamSlicer.update_cursor ⟨1, 3, 1, "date", fmt_ymd, parse_ymd, some 3⟩
        [("date", "2021-01-01")] none).cursor = some 3 ∧
    (DatetimeStreamSlicer.update_cursor ⟨1, 3, 1, "date", fmt_ymd, parse_ymd, some 3⟩
        [("date", "2021-01-01")] none).cursor = some (max 3 1) :=
  ⟨c6_monotonic_cursor.2.1 _ _ _ 1 3 (by decide) rfl (by decide),
   c6_monotonic_cursor.2.2.1 _ _ _ 1 3 (by decide) rfl⟩

/-- C7: a composite with zero children enumerates the empty sequence (not
one empty partition, and without error — stream_slices is total), and a
range slicer whose end boundary lies before its start boundary enumerates
the empty sequence (again without error). -/
theorem c7_empty_enumerations :
    CartesianProductStreamSlicer.stream_slices ⟨[]⟩ = [] ∧
    (∀ d : DatetimeStreamSlicer, d.end_datetime < d.start_datetime →
      d.stream_slices = []) := by
  refine ⟨rfl, ?_⟩
  intro d h
  unfold DatetimeStreamSlicer.stream_slices
  have hs0 : ∀ s0 : Nat, d.start_datetime ≤ s0 → d.end_datetime + 1 - s0 = 0 := by
    intro s0 hle
    omega
  cases hc : d.cursor with
  | none =>
      show dt_slices_fuel d.fmt d.step d.end_datetime
        (d.end_datetime + 1 - d.start_datetime) d.start_datetime = []
      rw [hs0 d.start_datetime (Nat.le_refl _)]
      rfl
  | some c =>
      show dt_slices_fuel d.fmt d.step d.end_datetime
        (d.end_datetime + 1 - max d.start_datetime c) (max d.start_datetime c) = []
      rw [hs0 (max d.start_datetime c) (Nat.le_max_left _ _)]
      rfl

/-- Witness for C7: a concrete range slicer running from day 5 down to
day 2 enumerates nothing; the boundary hypothesis discharged there. -/
theorem c7_empty_enumerations_witness :
    DatetimeStreamSlicer.stream_slices ⟨5, 2, 1, "d", fmt_ymd, parse_ymd, none⟩ = [] :=
  c7_empty_enumerations.2 ⟨5, 2, 1, "d", fmt_ymd, parse_ymd, none⟩ (by decide)

/-- C8: get_auth_header returns a mapping with exactly one entry, its key
the auth_header property and its value the token property — the three
accessors agree for every access-token value. -/
theorem c8_auth_header_consistency (a : Oauth2Authenticator) :
    a.get_auth_header = [(a.auth_header, a.token)] := rfl

/-- C9: the refresh request body has exactly the keys grant_type (value
"refresh_token") and refresh_token (the stored refresh token); neither
client_id nor client_secret appears among its keys, and the outgoing
refresh request carries them only as the basic-auth pair while its form
data is exactly that body. -/
theorem c9_refresh_request_body (a : Oauth2Authenticator) :
    a.get_refresh_request_body.map Prod.fst = ["grant_type", "refresh_token"] ∧
    List.lookup "grant_type" a.get_refresh_request_body = some "refresh_token" ∧
    List.lookup "refresh_token" a.get_refresh_request_body = some a.refresh_token ∧
    "client_id" ∉ a.get_refresh_request_body.map Prod.fst ∧
    "client_secret" ∉ a.get_refresh_request_body.map Prod.fst ∧
    a.refresh_request.data = a.get_refresh_request_body ∧
    a.refresh_request.auth = some (a.client_id, a.client_secret) := by
  refine ⟨rfl, rfl, rfl, ?_, ?_, rfl, rfl⟩
  · intro h
    simp [Oauth2Authenticator.get_refresh_request_body] at h
  · intro h
    simp [Oauth2Authenticator.get_refresh_request_body] at h

/-- Witness for C9: the body-shape facts applied to a concrete
authenticator, every component evaluated there. -/
theorem c9_refresh_request_body_witness :
    (Oauth2Authenticator.get_refresh_request_body ⟨"at", "rt", "ci", "cs", "url"⟩).map
        Prod.fst = ["grant_type", "refresh_token"] ∧
    "client_id" ∉ (Oauth2Authenticator.get_refresh_request_body
        ⟨"at", "rt", "ci", "cs", "url"⟩).map Prod.fst ∧
    (Oauth2Authenticator.refresh_request ⟨"at", "rt", "ci", "cs", "url"⟩).auth =
      some ("ci", "cs") :=
  ⟨(c9_refresh_request_body ⟨"at", "rt", "ci", "cs", "url"⟩).1,
   (c9_refresh_request_body ⟨"at", "rt", "ci", "cs", "url"⟩).2.2.2.1,
   (c9_refresh_request_body ⟨"at", "rt", "ci", "cs", "url"⟩).2.2.2.2.2.2⟩

/-- Success characterization of the try-block body: it returns the pair
of token values exactly when the transport succeeds, the status check
passes, the body decodes, and both keys are present. -/
theorem refresh_flow_ok_iff (a : Oauth2Authenticator)
    (http : HttpRequest → Except String HttpResponse) (t e : JsonValue) :
    refresh_flow a http = .ok (t, e) ↔
      ∃ r : HttpResponse, ∃ j : List (String × JsonValue),
        http a.refresh_request = .ok r ∧
        ¬(400 ≤ r.status_code ∧ r.status_code < 600) ∧
        r.json_body = some j ∧
        List.lookup "access_token" j = some t ∧
        List.lookup "expires_in" j = some e := by
  unfold refresh_flow
  split
  · rename_i err heq
    simp [heq]
  · rename_i r heq
    split
    · rename_i hst
      simp [heq, hst]
    · rename_i hst
      split
      · rename_i hj
        simp [heq, hst, hj]
      · rename_i j hj
        split
        · rename_i ht
          simp [heq, hst, hj, ht]
        · rename_i tok ht
          split
          · rename_i he
            simp [heq, hst, hj, ht, he]
          · rename_i exp he
            constructor
            · intro h
              injection h with h1
              injection h1 with h2 h3
              exact ⟨r, j, heq, hst, hj, h2 ▸ ht, h3 ▸ he⟩
            · rintro ⟨r2, j2, hr2, hst2, hj2, ht2, he2⟩
              rw [heq] at hr2
              cases hr2
              rw [hj] at hj2
              cases hj2
              rw [ht] at ht2
              cases ht2
              rw [he] at he2
              cases he2
              rfl

/-- The re-raise wrapper preserves the success outcome unchanged. -/
theorem refresh_access_token_ok_iff (a : Oauth2Authenticator)
    (http : HttpRequest → Except String HttpResponse) (t e : JsonValue) :
    a.refresh_access_token http = .ok (t, e) ↔ refresh_flow a http = .ok (t, e) := by
  unfold Oauth2Authenticator.refresh_access_token
  split
  · rename_i v hv
    simp [hv]
  · rename_i er hv
    simp [hv]

/-- C10: refresh_access_token returns the pair of the response's
access_token and expires_in values exactly when the request succeeds, the
status check passes, the body decodes, and both keys are present; in
every other case it yields an error whose message begins with "Error
while refreshing access token: " followed by the original failure's
message.  No other outcome exists. -/
theorem c10_refresh_access_token_outcomes (a : Oauth2Authenticator)
    (http : HttpRequest → Except String HttpResponse) :
    (∀ t e : JsonValue, a.refresh_access_token http = .ok (t, e) ↔
      ∃ r : HttpResponse, ∃ j : List (String × JsonValue),
        http a.refresh_request = .ok r ∧
        ¬(400 ≤ r.status_code ∧ r.status_code < 600) ∧
        r.json_body = some j ∧
        List.lookup "access_token" j = some t ∧
        List.lookup "expires_in" j = some e) ∧
    (∀ msg : String, a.refresh_access_token http = .error msg →
      ∃ rest : String, msg = "Error while refreshing access token: " ++ rest) := by
  constructor
  · intro t e
    exact (refresh_access_token_ok_iff a http t e).trans (refresh_flow_ok_iff a http t e)
  · intro msg h
    unfold Oauth2Authenticator.refresh_access_token at h
    cases hf : refresh_flow a http with
    | ok v =>
        rw [hf] at h
        cases h
    | error e =>
        rw [hf] at h
        cases h
        exact ⟨e, rfl⟩

/-- Witness for C10: on a transport that always fails with "boom", the
method yields exactly the prefixed error; the error-message fact and the
success characterization are applied at concrete inputs, hypotheses
discharged there. -/
theorem c10_refresh_access_token_outcomes_witness :
    ∃ rest : String,
      ("Error while refreshing access token: boom" : String) =
        "Error while refreshing access token: " ++ rest :=
  (c10_refresh_access_token_outcomes ⟨"at", "rt", "ci", "cs", "url"⟩
      (fun _ => .error "boom")).2
    "Error while refreshing access token: boom" rfl
